import Mathlib

/-!
Shallow embedding of the WebSocket signaling relay implemented in
src/server.js of the P2P-Web-File-Share repository, and theorems settling
the frozen claims about its specification.

The embedding models the observable behaviour of the per-connection
message handler (lines 312 to 417), the close handler (lines 419 to 441),
the Redis subscriber (lines 525 to 543), the idle timer (lines 306 to 310)
and the heartbeat sweeper (lines 444 to 458).  JavaScript Maps become
association lists, JS truthiness on partner values is made explicit, the
token bucket holds rational token counts, and each side effect of a
handler run (socket writes, bus publishes, counter increments, closes) is
recorded in an effect list.
-/

namespace P2PRelay

/-- Association-list lookup mirroring Map.get: first binding of the key. -/
def mapGet {α : Type} : List (String × α) → String → Option α
  | [], _ => none
  | (k2, v) :: rest, k => if k2 = k then some v else mapGet rest k

/-- Map.set: replace the first binding of the key or append a new one. -/
def mapSet {α : Type} : List (String × α) → String → α → List (String × α)
  | [], k, v => [(k, v)]
  | (k2, v2) :: rest, k, v =>
    if k2 = k then (k, v) :: rest else (k2, v2) :: mapSet rest k v

/-- Map.delete: remove the first binding of the key. -/
def mapDel {α : Type} : List (String × α) → String → List (String × α)
  | [], _ => []
  | (k2, v2) :: rest, k =>
    if k2 = k then rest else (k2, v2) :: mapDel rest k

/-- Observable abstraction of a signal payload object: ptype holds
payload.type when that field is a string; sdpLen and candLen hold the
JSON.stringify lengths of payload.sdp and payload.candidate when those
fields are truthy, and none when they are absent or falsy. -/
structure Payload where
  ptype : Option String
  sdpLen : Option Nat
  candLen : Option Nat
deriving DecidableEq

/-- Observable abstraction of a parsed inbound frame after the
destructuring on line 337: toCode is some s exactly when the field holds the
string s, payload is some p exactly when the field holds a truthy object,
etype is the envelope-level type field when it is a string (the handler
compares it only against the string list). -/
structure Envelope where
  toCode : Option String
  payload : Option Payload
  etype : Option String
deriving DecidableEq

/-- An inbound WebSocket frame: either JSON.parse throws or it yields an
envelope. -/
inductive Frame
| malformed
| parsed (e : Envelope)
deriving DecidableEq

/-- Messages the relay writes to a client socket. -/
inductive OutMsg
| welcome (id : String)
| peersList
| relayed (fromId : String) (p : Payload)
deriving DecidableEq

/-- Observable side effects of one handler run. -/
inductive Effect
| sendTo (dest : String) (m : OutMsg)
| publish (dst fromId : String) (p : Payload)
| errInc
| signalInc (kind : String)
| close (code : Nat) (reason : String)
deriving DecidableEq

/-- The configuration fields read on the message path: WS_MSG_RATE,
WS_MSG_BURST and whether the Redis bus is configured. -/
structure Cfg where
  rate : ℚ
  burst : ℚ
  useRedis : Bool
deriving DecidableEq

/-- The global registries of lines 214 to 215: peers holds the codes that
currently own a local socket, partner is the pairing map, with none
encoding the stored null. -/
structure SrvState where
  peers : List String
  partner : List (String × Option String)
deriving DecidableEq

/-- Per-connection mutable state read by the message handler: the token
bucket of line 303 and whether the 60 second idle timer of line 306 is
still armed. -/
structure ConnState where
  tokens : ℚ
  last : Nat
  signalTimeout : Bool
deriving DecidableEq

/-- Normalized partner lookup, mirroring partner.get(x) or null on lines
361 to 362: a missing binding, a stored null and the falsy empty string
all collapse to none. -/
def pget (m : List (String × Option String)) (k : String) : Option String :=
  match (mapGet m k).getD none with
  | none => none
  | some s => if s = "" then none else some s

/-- The JS conflict test p and p strict-unequal other, on a normalized
partner value. -/
def conflictSide (p : Option String) (other : String) : Bool :=
  match p with
  | none => false
  | some s => decide (s ≠ other)

/-- The payload.type whitelist of line 364. -/
def kindOk (kind : Option String) : Bool :=
  match kind with
  | none => false
  | some s => decide (s = "offer" ∨ s = "answer" ∨ s = "candidate" ∨ s = "bye" ∨ s = "busy")

/-- Size guard of line 366: a truthy payload.sdp longer than 200000 bytes
serialized. -/
def sdpTooBig (p : Payload) : Bool :=
  match p.sdpLen with
  | some n => decide (200000 < n)
  | none => false

/-- Size guard of line 367: a truthy payload.candidate longer than 50000
bytes serialized. -/
def candTooBig (p : Payload) : Bool :=
  match p.candLen with
  | some n => decide (50000 < n)
  | none => false

/-- The label kind or unknown used by the signals counter on line 412,
with JS truthiness on the empty string. -/
def kindLabel (kind : Option String) : String :=
  match kind with
  | none => "unknown"
  | some s => if s = "" then "unknown" else s

/-- The payload of the synthetic busy reply of line 379. -/
def busyPayload : Payload := { ptype := some "busy", sdpLen := none, candLen := none }

/-- Final forwarding step, lines 409 to 413: write the relayed envelope on
the destination socket and count the signal by kind. -/
def fwd (srv : SrvState) (id : String) (conn : ConnState) (t : String)
    (p : Payload) : SrvState × ConnState × List Effect :=
  (srv, conn, [Effect.sendTo t (OutMsg.relayed id p),
    Effect.signalInc (kindLabel p.ptype)])

/-- Pairing-gated part of the handler, lines 360 to 416, reached when the
destination owns a local socket: kind whitelist, size guards, idle-timer
cancellation, then the offer, answer, bye and candidate branches, then
forwarding.  A busy kind matches no branch and falls through to the
forward. -/
def gated (srv : SrvState) (id : String) (conn : ConnState) (t : String)
    (p : Payload) : SrvState × ConnState × List Effect :=
  let pFrom := pget srv.partner id
  let pTo := pget srv.partner t
  let kind := p.ptype
  if kindOk kind = false then (srv, conn, [])
  else if sdpTooBig p then (srv, conn, [])
  else if candTooBig p then (srv, conn, [])
  else
    let conn1 := { conn with signalTimeout := false }
    if kind = some "offer" then
      if conflictSide pFrom t || conflictSide pTo id then
        (srv, conn1, [Effect.sendTo id (OutMsg.relayed t busyPayload)])
      else
        fwd { srv with partner := mapSet srv.partner id (some t) } id conn1 t p
    else if kind = some "answer" then
      if conflictSide pFrom t || conflictSide pTo id then
        (srv, conn1, [])
      else
        fwd { srv with
          partner := mapSet (mapSet srv.partner id (some t)) t (some id) } id conn1 t p
    else if kind = some "bye" then
      let srv1 :=
        if pFrom = some t then { srv with partner := mapSet srv.partner id none }
        else srv
      let srv2 :=
        if pTo = some id then { srv1 with partner := mapSet srv1.partner t none }
        else srv1
      fwd srv2 id conn1 t p
    else if kind = some "candidate" then
      if pFrom = some t ∨ pTo = some id ∨ (pFrom = none ∧ pTo = none) then
        fwd srv id conn1 t p
      else (srv, conn1, [])
    else
      fwd srv id conn1 t p

/-- Handler after envelope validation, lines 343 to 358: the empty peers
answer to a list request, then the destination lookup, with the bus
publish (or silent drop) on a local miss, else the gated part. -/
def validMsg (cfg : Cfg) (srv : SrvState) (id : String) (conn : ConnState)
    (t : String) (p : Payload) (etype : Option String) :
    SrvState × ConnState × List Effect :=
  if etype = some "list" then (srv, conn, [Effect.sendTo id OutMsg.peersList])
  else if t ∈ srv.peers then gated srv id conn t p
  else if cfg.useRedis then (srv, conn, [Effect.publish t id p])
  else (srv, conn, [])

/-- Handler after the token bucket, lines 329 to 341: JSON parse and the
strict envelope validation, each failure counting one error and dropping
the frame with the connection left open. -/
def afterBucket (cfg : Cfg) (srv : SrvState) (id : String) (conn : ConnState)
    (data : Frame) : SrvState × ConnState × List Effect :=
  match data with
  | Frame.malformed => (srv, conn, [Effect.errInc])
  | Frame.parsed e =>
    match e.toCode, e.payload with
    | some t, some p => validMsg cfg srv id conn t p e.etype
    | some _, none => (srv, conn, [Effect.errInc])
    | none, _ => (srv, conn, [Effect.errInc])

/-- The whole message handler, lines 312 to 417.  When the configured rate
is positive the bucket is refilled by elapsed seconds times rate (elapsed
clamped at zero by the Nat subtraction, as Math.max does) and capped at
burst; fewer than one token counts an error and closes with code 1008 and
reason rate; otherwise one token is consumed and the frame proceeds.  With
rate zero or negative the whole bucket check is bypassed. -/
def handleMessage (cfg : Cfg) (srv : SrvState) (id : String) (conn : ConnState)
    (now : Nat) (data : Frame) : SrvState × ConnState × List Effect :=
  if 0 < cfg.rate then
    let elapsed : ℚ := ((now - conn.last : Nat) : ℚ) / 1000
    let conn1 := { conn with
      last := now,
      tokens := min cfg.burst (conn.tokens + elapsed * cfg.rate) }
    if conn1.tokens < 1 then
      (srv, conn1, [Effect.errInc, Effect.close 1008 "rate"])
    else
      afterBucket cfg srv id { conn1 with tokens := conn1.tokens - 1 } data
  else afterBucket cfg srv id conn data

/-- The close handler, lines 419 to 441, restricted to the registries:
remove the peer, drop its pairing entry, and null the counterpart entry
when it still points back. -/
def onClose (srv : SrvState) (id : String) : SrvState :=
  let p := pget srv.partner id
  let partner1 := mapDel srv.partner id
  let partner2 :=
    match p with
    | some q =>
      if (mapGet partner1 q).getD none = some id then mapSet partner1 q none
      else partner1
    | none => partner1
  { peers := srv.peers.erase id, partner := partner2 }

/-- Observable fields of a message arriving on the signals channel, after
JSON parse on the subscriber side. -/
structure RedisMsg where
  toCode : Option String
  fromId : String
  payload : Option Payload
  rtype : Option String
deriving DecidableEq

/-- The Redis subscriber handler, lines 525 to 543: it checks only that
type is the string signal, to is a string and payload is truthy, then
delivers to a locally connected destination without consulting the
pairing map. -/
def onRedisMessage (srv : SrvState) (m : RedisMsg) : List Effect :=
  if m.rtype = some "signal" then
    match m.toCode, m.payload with
    | some t, some p =>
      if t ∈ srv.peers then
        [Effect.sendTo t (OutMsg.relayed m.fromId p),
          Effect.signalInc (kindLabel p.ptype)]
      else []
    | _, _ => []
  else []

/-- The 60 second idle timer callback of lines 306 to 310: when still
armed it closes the connection with code 1000 and reason idle. -/
def idleFire (conn : ConnState) : List Effect :=
  if conn.signalTimeout then [Effect.close 1000 "idle"] else []

/-- Global events driving the registries: a socket connects and is minted
a code (lines 287 to 293), a connected socket delivers one frame to the
message handler, or a socket closes. -/
inductive Ev
| connect (id : String)
| msg (id : String) (conn : ConnState) (now : Nat) (data : Frame)
| close (id : String)

/-- Effect of one event on the registries. -/
def applyEv (cfg : Cfg) (srv : SrvState) : Ev → SrvState
  | Ev.connect id =>
    { peers := if id ∈ srv.peers then srv.peers else srv.peers ++ [id],
      partner := mapSet srv.partner id none }
  | Ev.msg id conn now data => (handleMessage cfg srv id conn now data).1
  | Ev.close id => onClose srv id

/-- Registries reached after a sequence of events from the empty state. -/
def runEvents (cfg : Cfg) (evs : List Ev) : SrvState :=
  evs.foldl (applyEv cfg) { peers := [], partner := [] }

/-- Run a list of timed frames from one sender through the message
handler, threading the registries and the connection state and collecting
all effects in order. -/
def runFrames (cfg : Cfg) (id : String) :
    SrvState × ConnState → List (Nat × Frame) → SrvState × ConnState × List Effect
  | (srv, conn), [] => (srv, conn, [])
  | (srv, conn), (t, d) :: rest =>
    let r := handleMessage cfg srv id conn t d
    let r2 := runFrames cfg id (r.1, r.2.1) rest
    (r2.1, r2.2.1, r.2.2 ++ r2.2.2)

/-- True when some acknowledgement time lies strictly inside the window. -/
def pongIn (pongs : List Nat) (a b : Nat) : Bool :=
  pongs.any (fun s => decide (a < s) && decide (s < b))

/-- State of one connection under the heartbeat sweeper of lines 444 to
458: the sweep at index k runs at time 30 k and the list pongs holds the
acknowledgement times.  The first component is the isAlive flag right
after sweep k, the second is whether some sweep up to k has terminated the
socket.  A sweep terminates a socket whose flag is still false, otherwise
it clears the flag and pings. -/
def hbAfterSweep (pongs : List Nat) : Nat → Bool × Bool
  | 0 => (true, false)
  | k + 1 =>
    if (hbAfterSweep pongs k).2 then ((hbAfterSweep pongs k).1, true)
    else if (hbAfterSweep pongs k).1 || pongIn pongs (30 * k) (30 * (k + 1)) then
      (false, false)
    else (false, true)

/-- The connection is terminated exactly at sweep k: dead after sweep k
but not after sweep k minus one. -/
def hbDeadAt (pongs : List Nat) (k : Nat) : Bool :=
  (hbAfterSweep pongs k).2 && !((hbAfterSweep pongs (k - 1)).2)

/-- Number of pings sent before sweep k whose acknowledgement window
passed with no pong: the ping of sweep j is acknowledged during the open
window from 30 j to 30 (j + 1). -/
def missedAcks (pongs : List Nat) (k : Nat) : Nat :=
  ((List.range (k - 1)).map (fun j => j + 1)).countP
    (fun j => !(pongIn pongs (30 * j) (30 * (j + 1))))

/-- Largest acknowledgement time, zero (the connect time) when there is
none. -/
def maxPong (pongs : List Nat) : Nat := pongs.foldr max 0

/-! Concrete fixtures used by the counterexamples and witnesses. -/

/-- Default-flavoured configuration with message rate limiting off. -/
def cfg0 : Cfg := { rate := 0, burst := 40, useRedis := false }

/-- Same configuration with the Redis bus configured. -/
def cfgR : Cfg := { rate := 0, burst := 40, useRedis := true }

/-- A fresh connection: full bucket, idle timer armed. -/
def conn0 : ConnState := { tokens := 40, last := 0, signalTimeout := true }

/-- A payload carrying only a type discriminator. -/
def plainP (k : String) : Payload := { ptype := some k, sdpLen := none, candLen := none }

/-- A well-formed signaling frame addressed to t with payload type k. -/
def sig (t k : String) : Frame :=
  Frame.parsed { toCode := some t, payload := some (plainP k), etype := none }

/-- Two connected peers A and B, both unpaired. -/
def srvAB : SrvState := { peers := ["A", "B"], partner := [("A", none), ("B", none)] }

/-- A single connected peer A, unpaired. -/
def srvA : SrvState := { peers := ["A"], partner := [("A", none)] }

/-- Entry-level self-freedom: no binding in the pairing map points a code
at itself. -/
def SelfFree (m : List (String × Option String)) : Prop :=
  ∀ q ∈ m, q.2 ≠ some q.1

theorem mem_mapSet {α : Type} (m : List (String × α)) (k : String) (v : α) :
    ∀ q ∈ mapSet m k v, q = (k, v) ∨ q ∈ m := by
  induction m with
  | nil => intro q hq; simp [mapSet] at hq; simp [hq]
  | cons h rest ih =>
    intro q hq
    obtain ⟨k2, v2⟩ := h
    simp only [mapSet] at hq
    split at hq
    · rcases List.mem_cons.mp hq with h1 | h1
      · exact Or.inl h1
      · exact Or.inr (List.mem_cons_of_mem _ h1)
    · rcases List.mem_cons.mp hq with h1 | h1
      · exact Or.inr (h1 ▸ List.mem_cons_self _ _)
      · rcases ih q h1 with h2 | h2
        · exact Or.inl h2
        · exact Or.inr (List.mem_cons_of_mem _ h2)

theorem mem_mapDel {α : Type} (m : List (String × α)) (k : String) :
    ∀ q ∈ mapDel m k, q ∈ m := by
  induction m with
  | nil => intro q hq; simp [mapDel] at hq
  | cons h rest ih =>
    intro q hq
    obtain ⟨k2, v2⟩ := h
    simp only [mapDel] at hq
    split at hq
    · exact List.mem_cons_of_mem _ hq
    · rcases List.mem_cons.mp hq with h1 | h1
      · exact h1 ▸ List.mem_cons_self _ _
      · exact List.mem_cons_of_mem _ (ih q h1)

theorem selfFree_mapSet {m : List (String × Option String)} {k : String}
    {v : Option String} (h : SelfFree m) (hv : v ≠ some k) : SelfFree (mapSet m k v) := by
  intro q hq
  rcases mem_mapSet m k v q hq with rfl | hm
  · simpa using hv
  · exact h q hm

theorem selfFree_mapDel {m : List (String × Option String)} {k : String}
    (h : SelfFree m) : SelfFree (mapDel m k) :=
  fun q hq => h q (mem_mapDel m k q hq)

theorem mapGet_mem {α : Type} :
    ∀ {m : List (String × α)} {k : String} {v : α}, mapGet m k = some v → (k, v) ∈ m := by
  intro m
  induction m with
  | nil => intro k v h; simp [mapGet] at h
  | cons q rest ih =>
    intro k v h
    obtain ⟨k2, v2⟩ := q
    simp only [mapGet] at h
    split at h
    · rename_i heq
      obtain rfl := heq
      obtain rfl := Option.some_injective _ h
      exact List.mem_cons_self _ _
    · exact List.mem_cons_of_mem _ (ih h)

theorem pget_ne_self {m : List (String × Option String)} (h : SelfFree m) (X : String) :
    pget m X ≠ some X := by
  intro hX
  unfold pget at hX
  cases hg : mapGet m X with
  | none => rw [hg] at hX; simp at hX
  | some o =>
    rw [hg] at hX
    cases o with
    | none => simp at hX
    | some s =>
      simp only [Option.getD_some] at hX
      by_cases hs : s = ""
      · rw [if_pos hs] at hX; simp at hX
      · rw [if_neg hs] at hX
        obtain rfl := Option.some_injective _ hX
        exact h _ (mapGet_mem hg) rfl

theorem selfFree_gated {srv : SrvState} (id : String) (conn : ConnState)
    (t : String) (p : Payload) (h : SelfFree srv.partner) (hne : t ≠ id) :
    SelfFree (gated srv id conn t p).1.partner := by
  unfold gated fwd
  have hts : (some t : Option String) ≠ some id := by simpa using hne
  have hst : (some id : Option String) ≠ some t := by simpa using (Ne.symm hne)
  have hnone : ∀ k : String, (none : Option String) ≠ some k := by simp
  dsimp only
  split_ifs <;>
    first
      | exact h
      | exact selfFree_mapSet h hts
      | exact selfFree_mapSet (selfFree_mapSet h hts) hst
      | exact selfFree_mapSet (selfFree_mapSet h (hnone _)) (hnone _)
      | exact selfFree_mapSet h (hnone _)

theorem selfFree_validMsg (cfg : Cfg) {srv : SrvState} (id : String) (conn : ConnState)
    (t : String) (p : Payload) (etype : Option String)
    (h : SelfFree srv.partner) (hne : t ≠ id) :
    SelfFree (validMsg cfg srv id conn t p etype).1.partner := by
  unfold validMsg
  split_ifs with h1 h2 h3
  · exact h
  · exact selfFree_gated id conn t p h hne
  · exact h
  · exact h

theorem selfFree_afterBucket (cfg : Cfg) {srv : SrvState} (id : String) (conn : ConnState)
    (data : Frame) (h : SelfFree srv.partner)
    (hself : ∀ e : Envelope, data = Frame.parsed e → e.toCode ≠ some id) :
    SelfFree (afterBucket cfg srv id conn data).1.partner := by
  unfold afterBucket
  cases data with
  | malformed => exact h
  | parsed e =>
    cases hto : e.toCode with
    | none => simp only [hto]; exact h
    | some t =>
      cases hpay : e.payload with
      | none => simp only [hto, hpay]; exact h
      | some p =>
        simp only [hto, hpay]
        refine selfFree_validMsg cfg id conn t p e.etype h ?_
        intro hti
        exact hself e rfl (by rw [hto, hti])

theorem selfFree_handleMessage (cfg : Cfg) {srv : SrvState} (id : String) (conn : ConnState)
    (now : Nat) (data : Frame) (h : SelfFree srv.partner)
    (hself : ∀ e : Envelope, data = Frame.parsed e → e.toCode ≠ some id) :
    SelfFree (handleMessage cfg srv id conn now data).1.partner := by
  unfold handleMessage
  dsimp only
  split_ifs with h1 h2
  · exact h
  · exact selfFree_afterBucket cfg id _ data h hself
  · exact selfFree_afterBucket cfg id conn data h hself

theorem selfFree_onClose {srv : SrvState} (id : String) (h : SelfFree srv.partner) :
    SelfFree (onClose srv id).partner := by
  unfold onClose
  cases hp : pget srv.partner id with
  | none => exact selfFree_mapDel h
  | some q =>
    simp only []
    split_ifs with h1
    · exact selfFree_mapSet (selfFree_mapDel h) (by simp)
    · exact selfFree_mapDel h

theorem selfFree_applyEv (cfg : Cfg) {srv : SrvState} (e : Ev) (h : SelfFree srv.partner)
    (he : ∀ id conn now env, e = Ev.msg id conn now (Frame.parsed env) → env.toCode ≠ some id) :
    SelfFree (applyEv cfg srv e).partner := by
  cases e with
  | connect id => exact selfFree_mapSet h (by simp)
  | msg id conn now data =>
    exact selfFree_handleMessage cfg id conn now data h
      (fun env hd => he id conn now env (by rw [hd]))
  | close id => exact selfFree_onClose id h

theorem selfFree_foldl (cfg : Cfg) (evs : List Ev) :
    ∀ srv : SrvState, SelfFree srv.partner →
      (∀ id conn now env, Ev.msg id conn now (Frame.parsed env) ∈ evs → env.toCode ≠ some id) →
      SelfFree (evs.foldl (applyEv cfg) srv).partner := by
  induction evs with
  | nil => intro srv h _; simpa using h
  | cons e rest ih =>
    intro srv h hall
    simp only [List.foldl_cons]
    refine ih _ (selfFree_applyEv cfg e h ?_) ?_
    · intro id conn now env heq
      exact hall id conn now env (heq ▸ List.mem_cons_self _ _)
    · intro id conn now env hm
      exact hall id conn now env (List.mem_cons_of_mem _ hm)

/-- Claim C1, counterexample: the self-freedom invariant I2 fails on the
code.  A freshly connected peer A that sends an offer addressed to its own
code passes the conflict test (both partner lookups are null) and executes
partner.set(A, A), so A becomes its own partner. -/
theorem offer_to_self_pairs_self :
    pget (runEvents cfg0 [Ev.connect "A", Ev.msg "A" conn0 0 (sig "A" "offer")]).partner "A"
      = some "A" := by decide

/-- Claim C1, amended: for every state reachable by any sequence of
connect, message and close events in which no peer sends a frame addressed
to its own code, the pairing map never maps a code to itself. -/
theorem pairing_self_free_of_no_self_addressed (cfg : Cfg) (evs : List Ev) (X : String)
    (h : ∀ id conn now env,
      Ev.msg id conn now (Frame.parsed env) ∈ evs → env.toCode ≠ some id) :
    pget (runEvents cfg evs).partner X ≠ some X := by
  have hsf : SelfFree (runEvents cfg evs).partner := by
    refine selfFree_foldl cfg evs _ ?_ h
    intro q hq
    simp at hq
  exact pget_ne_self hsf X

/-- Demo trace for the C1 witness: A and B connect, A offers to B. -/
def demoEvs : List Ev :=
  [Ev.connect "A", Ev.connect "B", Ev.msg "A" conn0 0 (sig "B" "offer")]

/-- Claim C1, witness: the amended theorem applied to a concrete trace. -/
theorem pairing_self_free_witness :
    pget (runEvents cfg0 demoEvs).partner "A" ≠ some "A" := by
  refine pairing_self_free_of_no_self_addressed cfg0 demoEvs "A" ?_
  intro id conn now env hmem
  simp only [demoEvs, sig, List.mem_cons, List.not_mem_nil, or_false] at hmem
  rcases hmem with h1 | h1 | h1
  · exact absurd h1 (by simp)
  · exact absurd h1 (by simp)
  · obtain ⟨rfl, -, -, henv⟩ := Ev.msg.inj h1
    obtain rfl := Frame.parsed.inj henv
    simp

/-- Claim C2, counterexample: a frame whose payload.type is not in the
whitelist, addressed to a code with no local socket while the bus is
configured, is published to the signals channel, although the same frame
addressed to a locally connected peer is dropped at the whitelist with
nothing delivered.  The publish therefore happens without the kind, size
and pairing gating that local delivery applies, refuting the claim. -/
theorem local_miss_publish_skips_gating :
    (handleMessage cfgR srvA "A" conn0 0 (sig "B" "nonsense")).2.2
      = [Effect.publish "B" "A" (plainP "nonsense")]
    ∧ gated srvAB "A" conn0 "B" (plainP "nonsense") = (srvAB, conn0, []) := by decide

/-- Claim C2, amended: on a local miss with the bus configured, the frame
is published after only the rate limit and the envelope validation; the
kind whitelist, the size guards and the pairing state machine are not
consulted before publishing, and the receiving instance delivers without
consulting its pairing map (its output is independent of that map). -/
theorem localMiss_publish_no_gating (cfg : Cfg) (srv srv2 : SrvState) (id : String)
    (conn : ConnState) (t : String) (p : Payload) (etype : Option String) (m : RedisMsg)
    (hredis : cfg.useRedis = true) (hlist : etype ≠ some "list") (hmiss : t ∉ srv.peers) :
    validMsg cfg srv id conn t p etype = (srv, conn, [Effect.publish t id p])
    ∧ onRedisMessage srv2 m = onRedisMessage { peers := srv2.peers, partner := [] } m := by
  constructor
  · unfold validMsg
    rw [if_neg hlist, if_neg hmiss, if_pos hredis]
  · rfl

/-- Claim C2, witness: the amended theorem at concrete inputs. -/
theorem localMiss_publish_witness :
    validMsg cfgR srvA "A" conn0 "B" (plainP "offer") none
      = (srvA, conn0, [Effect.publish "B" "A" (plainP "offer")])
    ∧ onRedisMessage srvAB
        { toCode := some "A", fromId := "Z", payload := some (plainP "offer"),
          rtype := some "signal" }
      = onRedisMessage { peers := srvAB.peers, partner := [] }
        { toCode := some "A", fromId := "Z", payload := some (plainP "offer"),
          rtype := some "signal" } :=
  localMiss_publish_no_gating cfgR srvA srvAB "A" conn0 "B" (plainP "offer") none
    { toCode := some "A", fromId := "Z", payload := some (plainP "offer"),
      rtype := some "signal" }
    rfl (by decide) (by decide)

/-- Claim C3, counterexample: an inbound frame with payload.type busy
from A to a connected peer B is not dropped: busy is in the kind whitelist
and matches no pairing branch, so it is forwarded to B and counted. -/
theorem busy_inbound_forwarded :
    (handleMessage cfg0 srvAB "A" conn0 0 (sig "B" "busy")).2.2
      = [Effect.sendTo "B" (OutMsg.relayed "A" busyPayload), Effect.signalInc "busy"] := by
  decide

/-- Claim C3, amended: an inbound busy frame that passes envelope
validation and the size guards and whose destination is locally connected
is relayed to the destination unconditionally, regardless of the pairing
state of sender and destination, with the pairing map unchanged. -/
theorem busy_relayed_unconditionally (srv : SrvState) (id : String) (conn : ConnState)
    (t : String) (p : Payload) (hk : p.ptype = some "busy")
    (hs : sdpTooBig p = false) (hc : candTooBig p = false) :
    gated srv id conn t p
      = (srv, { conn with signalTimeout := false },
        [Effect.sendTo t (OutMsg.relayed id p), Effect.signalInc "busy"]) := by
  unfold gated fwd
  dsimp only
  rw [hk]
  simp [kindOk, kindLabel, hs, hc]

/-- Claim C3, witness: the amended theorem at concrete inputs. -/
theorem busy_relayed_witness :
    gated srvAB "A" conn0 "B" (plainP "busy")
      = (srvAB, { conn0 with signalTimeout := false },
        [Effect.sendTo "B" (OutMsg.relayed "A" (plainP "busy")), Effect.signalInc "busy"]) :=
  busy_relayed_unconditionally srvAB "A" conn0 "B" (plainP "busy") rfl rfl rfl

/-- Claim C4, counterexample: an answer from A to B when both peers are
Free (A never dialed B) is not dropped: the code accepts an answer
whenever neither side is partnered with a third peer, so it pairs both
sides and forwards, refuting the claimed precondition. -/
theorem answer_from_free_sender_forwarded :
    (handleMessage cfg0 srvAB "A" conn0 0 (sig "B" "answer")).1.partner
      = [("A", some "B"), ("B", some "A")]
    ∧ Effect.sendTo "B" (OutMsg.relayed "A" (plainP "answer"))
        ∈ (handleMessage cfg0 srvAB "A" conn0 0 (sig "B" "answer")).2.2 := by decide

/-- Claim C4, amended: an inbound answer from A to B is forwarded and sets
Pairing[A] := B and Pairing[B] := A exactly when A is Free or already
points at B, and B is Free or already points at A; when either side is
partnered with some other peer the answer is dropped silently with no
state change. -/
theorem answer_pairing_policy (srv srvB : SrvState) (id idB : String)
    (conn connB : ConnState) (t tB : String) (p pB : Payload)
    (hk : p.ptype = some "answer") (hs : sdpTooBig p = false) (hc : candTooBig p = false)
    (hconf : (conflictSide (pget srv.partner id) t
      || conflictSide (pget srv.partner t) id) = true)
    (hkB : pB.ptype = some "answer") (hsB : sdpTooBig pB = false)
    (hcB : candTooBig pB = false)
    (hokF : conflictSide (pget srvB.partner idB) tB = false)
    (hokT : conflictSide (pget srvB.partner tB) idB = false) :
    gated srv id conn t p = (srv, { conn with signalTimeout := false }, [])
    ∧ gated srvB idB connB tB pB
      = ({ srvB with partner := mapSet (mapSet srvB.partner idB (some tB)) tB (some idB) },
        { connB with signalTimeout := false },
        [Effect.sendTo tB (OutMsg.relayed idB pB), Effect.signalInc "answer"]) := by
  constructor
  · unfold gated
    dsimp only
    rw [hk]
    simp [kindOk, hs, hc, hconf]
  · unfold gated fwd
    dsimp only
    rw [hkB]
    simp [kindOk, kindLabel, hsB, hcB, hokF, hokT]

/-- Claim C4, witness: the amended theorem at concrete inputs. -/
theorem answer_pairing_witness :
    gated { peers := ["A", "B"], partner := [("A", some "C"), ("B", none), ("C", some "A")] }
        "A" conn0 "B" (plainP "answer")
      = ({ peers := ["A", "B"], partner := [("A", some "C"), ("B", none), ("C", some "A")] },
        { conn0 with signalTimeout := false }, [])
    ∧ gated srvAB "A" conn0 "B" (plainP "answer")
      = ({ srvAB with partner := mapSet (mapSet srvAB.partner "A" (some "B")) "B" (some "A") },
        { conn0 with signalTimeout := false },
        [Effect.sendTo "B" (OutMsg.relayed "A" (plainP "answer")), Effect.signalInc "answer"]) :=
  answer_pairing_policy
    { peers := ["A", "B"], partner := [("A", some "C"), ("B", none), ("C", some "A")] }
    srvAB "A" "A" conn0 conn0 "B" "B" (plainP "answer") (plainP "answer")
    rfl rfl rfl (by decide) rfl rfl rfl (by decide) (by decide)

/-- The state reached when B offers to A and then A offers to C. -/
def s5 : SrvState :=
  runEvents cfg0 [Ev.connect "A", Ev.connect "B", Ev.connect "C",
    Ev.msg "B" conn0 0 (sig "A" "offer"), Ev.msg "A" conn0 0 (sig "C" "offer")]

/-- Claim C5, counterexample: in the reachable state where B offered A
(Pairing[B] = A) and then A offered C (Pairing[A] = C), a candidate from A
to B is forwarded, because the candidate gate also passes when the
destination points back at the sender; the claim demands a silent drop
whenever the sender is partnered with a third peer. -/
theorem candidate_conflict_forwarded :
    pget s5.partner "A" = some "C"
    ∧ pget s5.partner "B" = some "A"
    ∧ Effect.sendTo "B" (OutMsg.relayed "A" (plainP "candidate"))
        ∈ (handleMessage cfg0 s5 "A" conn0 0 (sig "B" "candidate")).2.2 := by decide

/-- Claim C5, amended: on a pairing conflict an offer is answered with
exactly the synthetic busy envelope to the sender and nothing reaches the
destination, a conflicting answer is dropped silently, and a candidate is
forwarded exactly when the sender points at the destination, or the
destination points at the sender, or both are Free, and dropped silently
otherwise; in the offer, answer and drop cases the pairing map is
unchanged. -/
theorem signal_conflict_policy (srvO srvD srvC : SrvState) (idO idD idC : String)
    (connO connD connC : ConnState) (tO tD tC : String) (pO pD pC : Payload)
    (hkO : pO.ptype = some "offer") (hsO : sdpTooBig pO = false)
    (hcO : candTooBig pO = false)
    (hconfO : (conflictSide (pget srvO.partner idO) tO
      || conflictSide (pget srvO.partner tO) idO) = true)
    (hkD : pD.ptype = some "answer") (hsD : sdpTooBig pD = false)
    (hcD : candTooBig pD = false)
    (hconfD : (conflictSide (pget srvD.partner idD) tD
      || conflictSide (pget srvD.partner tD) idD) = true)
    (hkC : pC.ptype = some "candidate") (hsC : sdpTooBig pC = false)
    (hcC : candTooBig pC = false) :
    gated srvO idO connO tO pO
      = (srvO, { connO with signalTimeout := false },
        [Effect.sendTo idO (OutMsg.relayed tO busyPayload)])
    ∧ gated srvD idD connD tD pD = (srvD, { connD with signalTimeout := false }, [])
    ∧ gated srvC idC connC tC pC
      = (if pget srvC.partner idC = some tC ∨ pget srvC.partner tC = some idC
            ∨ (pget srvC.partner idC = none ∧ pget srvC.partner tC = none)
        then (srvC, { connC with signalTimeout := false },
          [Effect.sendTo tC (OutMsg.relayed idC pC), Effect.signalInc "candidate"])
        else (srvC, { connC with signalTimeout := false }, [])) := by
  refine ⟨?_, ?_, ?_⟩
  · unfold gated
    dsimp only
    rw [hkO]
    simp [kindOk, hsO, hcO, hconfO]
  · unfold gated
    dsimp only
    rw [hkD]
    simp [kindOk, hsD, hcD, hconfD]
  · unfold gated fwd
    dsimp only
    rw [hkC]
    simp only [kindOk, hsC, hcC]
    split_ifs <;> simp_all [kindLabel]

/-- Claim C5, witness: the amended theorem at concrete inputs. -/
theorem signal_conflict_witness :
    gated { peers := ["A", "B"], partner := [("A", some "C"), ("B", none)] }
        "A" conn0 "B" (plainP "offer")
      = ({ peers := ["A", "B"], partner := [("A", some "C"), ("B", none)] },
        { conn0 with signalTimeout := false },
        [Effect.sendTo "A" (OutMsg.relayed "B" busyPayload)])
    ∧ gated { peers := ["A", "B"], partner := [("A", some "C"), ("B", none)] }
        "A" conn0 "B" (plainP "answer")
      = ({ peers := ["A", "B"], partner := [("A", some "C"), ("B", none)] },
        { conn0 with signalTimeout := false }, [])
    ∧ gated srvAB "A" conn0 "B" (plainP "candidate")
      = (if pget srvAB.partner "A" = some "B" ∨ pget srvAB.partner "B" = some "A"
            ∨ (pget srvAB.partner "A" = none ∧ pget srvAB.partner "B" = none)
        then (srvAB, { conn0 with signalTimeout := false },
          [Effect.sendTo "B" (OutMsg.relayed "A" (plainP "candidate")),
            Effect.signalInc "candidate"])
        else (srvAB, { conn0 with signalTimeout := false }, [])) :=
  signal_conflict_policy
    { peers := ["A", "B"], partner := [("A", some "C"), ("B", none)] }
    { peers := ["A", "B"], partner := [("A", some "C"), ("B", none)] }
    srvAB "A" "A" "A" conn0 conn0 conn0 "B" "B" "B"
    (plainP "offer") (plainP "answer") (plainP "candidate")
    rfl rfl rfl (by decide) rfl rfl rfl (by decide) rfl rfl rfl

/-- No path of the pairing-gated handler part closes the connection. -/
theorem close_notin_gated (srv : SrvState) (id : String) (conn : ConnState)
    (t : String) (p : Payload) (c : Nat) (s : String) :
    Effect.close c s ∉ (gated srv id conn t p).2.2 := by
  unfold gated fwd
  dsimp only
  repeat' split
  all_goals simp

/-- No path after envelope validation closes the connection. -/
theorem close_notin_validMsg (cfg : Cfg) (srv : SrvState) (id : String)
    (conn : ConnState) (t : String) (p : Payload) (ety : Option String)
    (c : Nat) (s : String) :
    Effect.close c s ∉ (validMsg cfg srv id conn t p ety).2.2 := by
  unfold validMsg
  split
  · simp
  · split
    · exact close_notin_gated srv id conn t p c s
    · split <;> simp

/-- No path of the post-bucket handler ever closes the connection. -/
theorem close_notin_afterBucket (cfg : Cfg) (srv : SrvState) (id : String)
    (conn : ConnState) (d : Frame) (c : Nat) (s : String) :
    Effect.close c s ∉ (afterBucket cfg srv id conn d).2.2 := by
  rcases d with _ | ⟨to?, pay?, ety⟩
  · simp [afterBucket]
  · cases to? with
    | none => simp [afterBucket]
    | some t =>
      cases pay? with
      | none => simp [afterBucket]
      | some p =>
        simp only [afterBucket]
        exact close_notin_validMsg cfg srv id conn t p ety c s

/-- Claim C7, counterexample: a frame with an unrecognized payload.type
addressed to a connected peer, and an offer whose serialized sdp exceeds
200000 bytes, are both dropped with no effect at all: the error counter is
not incremented, refuting the claim that every validation failure counts
an error. -/
theorem silent_drops_skip_error_counter :
    (handleMessage cfg0 srvAB "A" conn0 0 (sig "B" "frobnicate")).2.2 = []
    ∧ (handleMessage cfg0 srvAB "A" conn0 0 (Frame.parsed
        { toCode := some "B",
          payload := some { ptype := some "offer", sdpLen := some 200001, candLen := none },
          etype := none })).2.2 = [] := by decide

/-- Claim C7, amended: malformed JSON and a missing or mistyped to or
payload field increment the error counter and drop the frame; an
unrecognized payload.type and an oversized sdp or candidate payload drop
the frame silently without touching the counter; in every such case no
close is emitted, so the connection stays open. -/
theorem validation_failure_policy (cfg : Cfg) (srv : SrvState) (id : String)
    (conn : ConnState) (e : Envelope) (t : String) (p q : Payload)
    (c : Nat) (s : String) (d : Frame)
    (he : e.toCode = none ∨ e.payload = none)
    (hk : kindOk p.ptype = false)
    (hq : sdpTooBig q = true ∨ candTooBig q = true) :
    afterBucket cfg srv id conn Frame.malformed = (srv, conn, [Effect.errInc])
    ∧ afterBucket cfg srv id conn (Frame.parsed e) = (srv, conn, [Effect.errInc])
    ∧ gated srv id conn t p = (srv, conn, [])
    ∧ gated srv id conn t q = (srv, conn, [])
    ∧ Effect.close c s ∉ (afterBucket cfg srv id conn d).2.2 := by
  refine ⟨rfl, ?_, ?_, ?_, close_notin_afterBucket cfg srv id conn d c s⟩
  · obtain ⟨to?, pay?, ety⟩ := e
    rcases he with h1 | h1 <;> simp only at h1 <;> subst h1
    · simp [afterBucket]
    · cases to? <;> simp [afterBucket]
  · unfold gated
    dsimp only
    rw [if_pos hk]
  · unfold gated fwd
    dsimp only
    split_ifs <;> simp_all

/-- Claim C7, witness: the amended theorem at concrete inputs. -/
theorem validation_failure_witness :
    afterBucket cfg0 srvAB "A" conn0 Frame.malformed = (srvAB, conn0, [Effect.errInc])
    ∧ afterBucket cfg0 srvAB "A" conn0
        (Frame.parsed { toCode := none, payload := some (plainP "offer"), etype := none })
      = (srvAB, conn0, [Effect.errInc])
    ∧ gated srvAB "A" conn0 "B" (plainP "frobnicate") = (srvAB, conn0, [])
    ∧ gated srvAB "A" conn0 "B"
        { ptype := some "offer", sdpLen := some 200001, candLen := none }
      = (srvAB, conn0, [])
    ∧ Effect.close 1008 "rate" ∉ (afterBucket cfg0 srvAB "A" conn0 (sig "B" "offer")).2.2 :=
  validation_failure_policy cfg0 srvAB "A" conn0
    { toCode := none, payload := some (plainP "offer"), etype := none }
    "B" (plainP "frobnicate")
    { ptype := some "offer", sdpLen := some 200001, candLen := none }
    1008 "rate" (sig "B" "offer") (by decide) (by decide) (by decide)

/-- With all gates passing, the gated part always clears the idle timer. -/
theorem gated_clears_idle (srv : SrvState) (id : String) (conn : ConnState)
    (t : String) (p : Payload) (hk : kindOk p.ptype = true)
    (hs : sdpTooBig p = false) (hc : candTooBig p = false) :
    (gated srv id conn t p).2.1.signalTimeout = false := by
  have h1 : ¬(kindOk p.ptype = false) := by simp [hk]
  have h2 : ¬(sdpTooBig p = true) := by simp [hs]
  have h3 : ¬(candTooBig p = true) := by simp [hc]
  unfold gated fwd
  dsimp only
  rw [if_neg h1, if_neg h2, if_neg h3]
  repeat' split
  all_goals rfl

/-- The gated handler part never re-arms a cancelled idle timer. -/
theorem gated_keeps_unarmed (srv : SrvState) (id : String) (conn : ConnState)
    (t : String) (p : Payload) (hoff : conn.signalTimeout = false) :
    (gated srv id conn t p).2.1.signalTimeout = false := by
  unfold gated fwd
  dsimp only
  repeat' split
  all_goals first | exact hoff | rfl

/-- The validated handler part never re-arms a cancelled idle timer. -/
theorem validMsg_keeps_unarmed (cfg : Cfg) (srv : SrvState) (id : String)
    (conn : ConnState) (t : String) (p : Payload) (ety : Option String)
    (hoff : conn.signalTimeout = false) :
    (validMsg cfg srv id conn t p ety).2.1.signalTimeout = false := by
  unfold validMsg
  split
  · exact hoff
  · split
    · exact gated_keeps_unarmed srv id conn t p hoff
    · split <;> exact hoff

/-- The post-bucket handler never re-arms a cancelled idle timer. -/
theorem afterBucket_keeps_unarmed (cfg : Cfg) (srv : SrvState) (id : String)
    (conn : ConnState) (d : Frame) (hoff : conn.signalTimeout = false) :
    (afterBucket cfg srv id conn d).2.1.signalTimeout = false := by
  rcases d with _ | ⟨to?, pay?, ety⟩
  · exact hoff
  · cases to? with
    | none => exact hoff
    | some t =>
      cases pay? with
      | none => exact hoff
      | some p =>
        simp only [afterBucket]
        exact validMsg_keeps_unarmed cfg srv id conn t p ety hoff

/-- Claim C8, counterexample: a valid offer addressed to a code with no
local socket returns at the local-miss branch before the idle-cancel line,
so the 60 second idle timer stays armed and can still close the
connection with code 1000 and reason idle, refuting the claim that a
first valid signaling message to any destination cancels the timer. -/
theorem nonlocal_signal_keeps_idle_timer :
    (handleMessage cfgR srvA "A" conn0 0 (sig "B" "offer")).2.1.signalTimeout = true
    ∧ idleFire (handleMessage cfgR srvA "A" conn0 0 (sig "B" "offer")).2.1
      = [Effect.close 1000 "idle"] := by decide

/-- Claim C8, amended: the idle timer is cancelled exactly by the first
frame that passes the bucket and envelope validation, is not a list
request, has a locally connected destination, carries a whitelisted
payload.type (offer, answer, candidate, bye or busy) and passes the size
guards; once cancelled, no later frame re-arms it, a disarmed timer fires
nothing, and an armed timer firing closes with code 1000 and reason
idle. -/
theorem idle_cancel_policy (cfg : Cfg) (srv srv2 : SrvState) (id id2 : String)
    (conn conn2 : ConnState) (now2 : Nat) (t : String) (p : Payload)
    (etype : Option String) (d : Frame)
    (hlist : etype ≠ some "list") (hloc : t ∈ srv.peers)
    (hk : kindOk p.ptype = true) (hs : sdpTooBig p = false) (hc : candTooBig p = false)
    (hoff : conn2.signalTimeout = false) :
    (validMsg cfg srv id conn t p etype).2.1.signalTimeout = false
    ∧ (handleMessage cfg srv2 id2 conn2 now2 d).2.1.signalTimeout = false
    ∧ idleFire conn2 = []
    ∧ idleFire { conn2 with signalTimeout := true } = [Effect.close 1000 "idle"] := by
  refine ⟨?_, ?_, ?_, ?_⟩
  · unfold validMsg
    rw [if_neg hlist, if_pos hloc]
    exact gated_clears_idle srv id conn t p hk hs hc
  · unfold handleMessage
    dsimp only
    split_ifs with h1 h2
    · exact hoff
    · exact afterBucket_keeps_unarmed cfg srv2 id2 _ d hoff
    · exact afterBucket_keeps_unarmed cfg srv2 id2 conn2 d hoff
  · simp [idleFire, hoff]
  · simp [idleFire]

/-- Claim C8, witness: the amended theorem at concrete inputs. -/
theorem idle_cancel_witness :
    (validMsg cfg0 srvAB "A" conn0 "B" (plainP "offer") none).2.1.signalTimeout = false
    ∧ (handleMessage cfg0 srvAB "A" { conn0 with signalTimeout := false } 0
        (sig "B" "offer")).2.1.signalTimeout = false
    ∧ idleFire { conn0 with signalTimeout := false } = []
    ∧ idleFire { { conn0 with signalTimeout := false } with signalTimeout := true }
      = [Effect.close 1000 "idle"] :=
  idle_cancel_policy cfg0 srvAB srvAB "A" "A" conn0
    { conn0 with signalTimeout := false } 0 "B" (plainP "offer") none
    (sig "B" "offer") (by decide) (by decide) rfl rfl rfl rfl

/-- The gated part touches only the idle flag of the connection state. -/
theorem gated_keeps_bucket (srv : SrvState) (id : String) (conn : ConnState)
    (t : String) (p : Payload) :
    ((gated srv id conn t p).2.1.tokens, (gated srv id conn t p).2.1.last)
      = (conn.tokens, conn.last) := by
  unfold gated fwd
  dsimp only
  repeat' split
  all_goals rfl

/-- The validated part touches only the idle flag of the connection state. -/
theorem validMsg_keeps_bucket (cfg : Cfg) (srv : SrvState) (id : String)
    (conn : ConnState) (t : String) (p : Payload) (ety : Option String) :
    ((validMsg cfg srv id conn t p ety).2.1.tokens,
      (validMsg cfg srv id conn t p ety).2.1.last) = (conn.tokens, conn.last) := by
  unfold validMsg
  split
  · rfl
  · split
    · exact gated_keeps_bucket srv id conn t p
    · split <;> rfl

/-- The post-bucket handler touches only the idle flag. -/
theorem afterBucket_keeps_bucket (cfg : Cfg) (srv : SrvState) (id : String)
    (conn : ConnState) (d : Frame) :
    ((afterBucket cfg srv id conn d).2.1.tokens,
      (afterBucket cfg srv id conn d).2.1.last) = (conn.tokens, conn.last) := by
  rcases d with _ | ⟨to?, pay?, ety⟩
  · rfl
  · cases to? with
    | none => rfl
    | some t =>
      cases pay? with
      | none => rfl
      | some p =>
        simp only [afterBucket]
        exact validMsg_keeps_bucket cfg srv id conn t p ety

/-- With no time elapsed since the previous frame, the bucket refill is a
no-op: the handler closes when the capped token count is below one and
otherwise spends one token. -/
theorem handleMessage_same_time (cfg : Cfg) (srv : SrvState) (id : String)
    (conn : ConnState) (t : Nat) (d : Frame) (hr : 0 < cfg.rate)
    (hl : conn.last = t) :
    handleMessage cfg srv id conn t d
      = if min cfg.burst conn.tokens < 1 then
          (srv, { conn with tokens := min cfg.burst conn.tokens },
            [Effect.errInc, Effect.close 1008 "rate"])
        else afterBucket cfg srv id
          { conn with tokens := min cfg.burst conn.tokens - 1 } d := by
  obtain ⟨tk, ls, st⟩ := conn
  simp only at hl
  subst hl
  unfold handleMessage
  rw [if_pos hr]
  simp [Nat.sub_self]

/-- Bucket configuration of scenario S4: burst two, rate zero. -/
def cfgB2 : Cfg := { rate := 0, burst := 2, useRedis := false }

/-- A fresh connection under cfgB2. -/
def connB2 : ConnState := { tokens := 2, last := 0, signalTimeout := true }

/-- Claim C6, counterexample: with burst two and rate zero, the whole
token-bucket check is skipped (the code guards it with rate strictly
positive), so three back-to-back frames never close the connection: each
is simply handled, here three malformed frames each counting one error. -/
theorem rate_zero_disables_bucket :
    Effect.close 1008 "rate"
        ∉ (runFrames cfgB2 "A" (srvAB, connB2)
            [(0, Frame.malformed), (0, Frame.malformed), (0, Frame.malformed)]).2.2
    ∧ (runFrames cfgB2 "A" (srvAB, connB2)
        [(0, Frame.malformed), (0, Frame.malformed), (0, Frame.malformed)]).2.2
      = [Effect.errInc, Effect.errInc, Effect.errInc] := by decide

/-- Claim C6, amended: the scenario holds when the rate is positive, not
zero: with burst two, any strictly positive rate, and three back-to-back
frames (no time elapsed), the first two are handled past the bucket (and
can never close the connection), while the third counts an error and
closes with code 1008 and reason rate. -/
theorem burst_two_positive_rate_third_closes (r : ℚ) (u : Bool) (srv : SrvState)
    (id : String) (t : Nat) (conn : ConnState) (d1 d2 d3 : Frame)
    (hr : 0 < r) (h2 : conn.tokens = 2) (hl : conn.last = t) :
    Effect.close 1008 "rate"
        ∉ (runFrames ⟨r, 2, u⟩ id (srv, conn) [(t, d1), (t, d2)]).2.2
    ∧ (runFrames ⟨r, 2, u⟩ id (srv, conn) [(t, d1), (t, d2), (t, d3)]).2.2
      = (runFrames ⟨r, 2, u⟩ id (srv, conn) [(t, d1), (t, d2)]).2.2
        ++ [Effect.errInc, Effect.close 1008 "rate"] := by
  have hrr : (0 : ℚ) < (Cfg.mk r 2 u).rate := hr
  have e1 : handleMessage ⟨r, 2, u⟩ srv id conn t d1
      = afterBucket ⟨r, 2, u⟩ srv id { conn with tokens := 1 } d1 := by
    rw [handleMessage_same_time ⟨r, 2, u⟩ srv id conn t d1 hrr hl]
    have : min (Cfg.mk r 2 u).burst conn.tokens = 2 := by rw [h2]; exact min_self 2
    rw [this]
    norm_num
  have hk1 := afterBucket_keeps_bucket ⟨r, 2, u⟩ srv id { conn with tokens := 1 } d1
  have hc1t : (afterBucket ⟨r, 2, u⟩ srv id { conn with tokens := 1 } d1).2.1.tokens = 1 :=
    (Prod.mk.injEq _ _ _ _ ▸ hk1).1
  have hc1l : (afterBucket ⟨r, 2, u⟩ srv id { conn with tokens := 1 } d1).2.1.last = t := by
    have := (Prod.mk.injEq _ _ _ _ ▸ hk1).2
    simpa [hl] using this
  have e2 : handleMessage ⟨r, 2, u⟩
        (afterBucket ⟨r, 2, u⟩ srv id { conn with tokens := 1 } d1).1 id
        (afterBucket ⟨r, 2, u⟩ srv id { conn with tokens := 1 } d1).2.1 t d2
      = afterBucket ⟨r, 2, u⟩
          (afterBucket ⟨r, 2, u⟩ srv id { conn with tokens := 1 } d1).1 id
          { (afterBucket ⟨r, 2, u⟩ srv id { conn with tokens := 1 } d1).2.1
            with tokens := 0 } d2 := by
    rw [handleMessage_same_time _ _ _ _ _ _ hrr hc1l, hc1t]
    norm_num
  have hk2 := afterBucket_keeps_bucket ⟨r, 2, u⟩
    (afterBucket ⟨r, 2, u⟩ srv id { conn with tokens := 1 } d1).1 id
    { (afterBucket ⟨r, 2, u⟩ srv id { conn with tokens := 1 } d1).2.1
      with tokens := 0 } d2
  have hc2t : (afterBucket ⟨r, 2, u⟩
      (afterBucket ⟨r, 2, u⟩ srv id { conn with tokens := 1 } d1).1 id
      { (afterBucket ⟨r, 2, u⟩ srv id { conn with tokens := 1 } d1).2.1
        with tokens := 0 } d2).2.1.tokens = 0 :=
    (Prod.mk.injEq _ _ _ _ ▸ hk2).1
  have hc2l : (afterBucket ⟨r, 2, u⟩
      (afterBucket ⟨r, 2, u⟩ srv id { conn with tokens := 1 } d1).1 id
      { (afterBucket ⟨r, 2, u⟩ srv id { conn with tokens := 1 } d1).2.1
        with tokens := 0 } d2).2.1.last = t := by
    have := (Prod.mk.injEq _ _ _ _ ▸ hk2).2
    simpa [hc1l] using this
  have e3 : handleMessage ⟨r, 2, u⟩
        (afterBucket ⟨r, 2, u⟩
          (afterBucket ⟨r, 2, u⟩ srv id { conn with tokens := 1 } d1).1 id
          { (afterBucket ⟨r, 2, u⟩ srv id { conn with tokens := 1 } d1).2.1
            with tokens := 0 } d2).1 id
        (afterBucket ⟨r, 2, u⟩
          (afterBucket ⟨r, 2, u⟩ srv id { conn with tokens := 1 } d1).1 id
          { (afterBucket ⟨r, 2, u⟩ srv id { conn with tokens := 1 } d1).2.1
            with tokens := 0 } d2).2.1 t d3
      = ((afterBucket ⟨r, 2, u⟩
          (afterBucket ⟨r, 2, u⟩ srv id { conn with tokens := 1 } d1).1 id
          { (afterBucket ⟨r, 2, u⟩ srv id { conn with tokens := 1 } d1).2.1
            with tokens := 0 } d2).1,
        { (afterBucket ⟨r, 2, u⟩
            (afterBucket ⟨r, 2, u⟩ srv id { conn with tokens := 1 } d1).1 id
            { (afterBucket ⟨r, 2, u⟩ srv id { conn with tokens := 1 } d1).2.1
              with tokens := 0 } d2).2.1 with tokens := 0 },
        [Effect.errInc, Effect.close 1008 "rate"]) := by
    rw [handleMessage_same_time _ _ _ _ _ _ hrr hc2l, hc2t]
    norm_num
  constructor
  · simp only [runFrames]
    rw [e1, e2]
    simp only [List.append_nil, List.mem_append, not_or]
    exact ⟨close_notin_afterBucket _ _ _ _ _ _ _, close_notin_afterBucket _ _ _ _ _ _ _⟩
  · simp only [runFrames]
    rw [e1, e2, e3]
    simp [List.append_assoc]

/-- Enough back-to-back frames drain a bucket that starts below n tokens. -/
theorem close_in_malformed_run (cfg : Cfg) (id : String) (t : Nat) (hr : 0 < cfg.rate) :
    ∀ (n : Nat) (srv : SrvState) (conn : ConnState), conn.last = t →
      0 ≤ conn.tokens → conn.tokens < (n : ℚ) →
      Effect.close 1008 "rate"
        ∈ (runFrames cfg id (srv, conn) (List.replicate n (t, Frame.malformed))).2.2 := by
  intro n
  induction n with
  | zero =>
    intro srv conn hl h0 hn
    rw [Nat.cast_zero] at hn
    exact absurd (lt_of_le_of_lt h0 hn) (lt_irrefl 0)
  | succ m ih =>
    intro srv conn hl h0 hn
    rw [List.replicate_succ]
    simp only [runFrames]
    rw [handleMessage_same_time cfg srv id conn t _ hr hl]
    by_cases hlt : min cfg.burst conn.tokens < 1
    · rw [if_pos hlt]
      simp
    · rw [if_neg hlt]
      have hb := afterBucket_keeps_bucket cfg srv id
        { conn with tokens := min cfg.burst conn.tokens - 1 } Frame.malformed
      have ht : (afterBucket cfg srv id
          { conn with tokens := min cfg.burst conn.tokens - 1 } Frame.malformed).2.1.tokens
          = min cfg.burst conn.tokens - 1 :=
        (Prod.mk.injEq _ _ _ _ ▸ hb).1
      have hlast : (afterBucket cfg srv id
          { conn with tokens := min cfg.burst conn.tokens - 1 } Frame.malformed).2.1.last
          = t := by
        have := (Prod.mk.injEq _ _ _ _ ▸ hb).2
        simpa [hl] using this
      have hmin : min cfg.burst conn.tokens ≤ conn.tokens := min_le_right _ _
      have h1 : (1 : ℚ) ≤ min cfg.burst conn.tokens := not_lt.mp hlt
      have h0' : 0 ≤ (afterBucket cfg srv id
          { conn with tokens := min cfg.burst conn.tokens - 1 } Frame.malformed).2.1.tokens := by
        rw [ht]; linarith
      have hn' : (afterBucket cfg srv id
          { conn with tokens := min cfg.burst conn.tokens - 1 } Frame.malformed).2.1.tokens
          < (m : ℚ) := by
        rw [ht]
        push_cast at hn
        linarith
      have hrec := ih (afterBucket cfg srv id
          { conn with tokens := min cfg.burst conn.tokens - 1 } Frame.malformed).1
        (afterBucket cfg srv id
          { conn with tokens := min cfg.burst conn.tokens - 1 } Frame.malformed).2.1
        hlast h0' hn'
      exact List.mem_append_right _ hrec

/-- Claim C6, witness: the amended theorem at rate one with three
malformed frames. -/
theorem burst_two_positive_rate_witness :
    Effect.close 1008 "rate"
        ∉ (runFrames ⟨1, 2, false⟩ "A" (srvAB, connB2)
            [(0, Frame.malformed), (0, Frame.malformed)]).2.2
    ∧ (runFrames ⟨1, 2, false⟩ "A" (srvAB, connB2)
        [(0, Frame.malformed), (0, Frame.malformed), (0, Frame.malformed)]).2.2
      = (runFrames ⟨1, 2, false⟩ "A" (srvAB, connB2)
          [(0, Frame.malformed), (0, Frame.malformed)]).2.2
        ++ [Effect.errInc, Effect.close 1008 "rate"] :=
  burst_two_positive_rate_third_closes 1 false srvAB "A" 0 connB2
    Frame.malformed Frame.malformed Frame.malformed (by norm_num) rfl rfl

/-- Claim C10: with a positive configured rate, every inbound frame pays
one token before any parsing or validation, so a long enough back-to-back
burst of malformed frames exhausts the bucket and closes the connection
with code 1008 and reason rate; a single malformed frame with a token
available merely counts an error and leaves the connection open, and a
frame arriving with the capped token count below one closes even though
the frame was never parsed. -/
theorem invalid_frames_exhaust_bucket (cfg : Cfg) (srv srv2 srv3 : SrvState)
    (id : String) (t t2 t3 : Nat) (conn conn2 conn3 : ConnState) (n : Nat)
    (hr : 0 < cfg.rate) (hl : conn.last = t) (h0 : 0 ≤ conn.tokens)
    (hn : conn.tokens < (n : ℚ))
    (hl2 : conn2.last = t2) (hs2 : 1 ≤ min cfg.burst conn2.tokens)
    (hl3 : conn3.last = t3) (hs3 : min cfg.burst conn3.tokens < 1) :
    Effect.close 1008 "rate"
        ∈ (runFrames cfg id (srv, conn) (List.replicate n (t, Frame.malformed))).2.2
    ∧ handleMessage cfg srv2 id conn2 t2 Frame.malformed
        = (srv2, { conn2 with tokens := min cfg.burst conn2.tokens - 1 }, [Effect.errInc])
    ∧ handleMessage cfg srv3 id conn3 t3 Frame.malformed
        = (srv3, { conn3 with tokens := min cfg.burst conn3.tokens },
          [Effect.errInc, Effect.close 1008 "rate"]) := by
  refine ⟨close_in_malformed_run cfg id t hr n srv conn hl h0 hn, ?_, ?_⟩
  · rw [handleMessage_same_time cfg srv2 id conn2 t2 _ hr hl2,
      if_neg (not_lt.mpr hs2)]
    rfl
  · rw [handleMessage_same_time cfg srv3 id conn3 t3 _ hr hl3, if_pos hs3]

/-- Claim C10, witness: the main theorem at burst two, rate one. -/
theorem invalid_frames_exhaust_witness :
    Effect.close 1008 "rate"
        ∈ (runFrames ⟨1, 2, false⟩ "A"
            (srvAB, { tokens := 2, last := 5, signalTimeout := true })
            (List.replicate 3 (5, Frame.malformed))).2.2
    ∧ handleMessage ⟨1, 2, false⟩ srvAB "A"
        { tokens := 2, last := 5, signalTimeout := true } 5 Frame.malformed
        = (srvAB,
          { tokens := min (Cfg.mk 1 2 false).burst (ConnState.mk 2 5 true).tokens - 1, last := 5, signalTimeout := true },
          [Effect.errInc])
    ∧ handleMessage ⟨1, 2, false⟩ srvAB "A"
        { tokens := 0, last := 7, signalTimeout := true } 7 Frame.malformed
        = (srvAB,
          { tokens := min (Cfg.mk 1 2 false).burst (ConnState.mk 0 7 true).tokens, last := 7, signalTimeout := true },
          [Effect.errInc, Effect.close 1008 "rate"]) :=
  invalid_frames_exhaust_bucket ⟨1, 2, false⟩ srvAB srvAB srvAB "A" 5 5 7
    { tokens := 2, last := 5, signalTimeout := true }
    { tokens := 2, last := 5, signalTimeout := true }
    { tokens := 0, last := 7, signalTimeout := true } 3
    (by norm_num) rfl (by norm_num) (by norm_num)
    rfl (by norm_num [min_def]) rfl (by norm_num [min_def])

theorem le_maxPong (pongs : List Nat) : ∀ s ∈ pongs, s ≤ maxPong pongs := by
  induction pongs with
  | nil => simp
  | cons h rest ih =>
    intro s hs
    rcases List.mem_cons.mp hs with rfl | hs2
    · exact le_max_left _ _
    · exact le_trans (ih s hs2) (le_max_right _ _)

theorem pongIn_exists {pongs : List Nat} {a b : Nat} (h : pongIn pongs a b = true) :
    ∃ s ∈ pongs, a < s ∧ s < b := by
  unfold pongIn at h
  obtain ⟨s, hs, hp⟩ := List.any_eq_true.mp h
  rw [Bool.and_eq_true, decide_eq_true_iff, decide_eq_true_iff] at hp
  exact ⟨s, hs, hp⟩

/-- A sweep that terminates found the flag down and no pong in its window. -/
theorem hb_dead_step (pongs : List Nat) (m : Nat)
    (hd : (hbAfterSweep pongs (m + 1)).2 = true)
    (hnd : (hbAfterSweep pongs m).2 = false) :
    (hbAfterSweep pongs m).1 = false
    ∧ pongIn pongs (30 * m) (30 * (m + 1)) = false := by
  have hc2 : ((hbAfterSweep pongs m).1 || pongIn pongs (30 * m) (30 * (m + 1))) = false := by
    by_contra hcc
    have hcc' : ((hbAfterSweep pongs m).1 || pongIn pongs (30 * m) (30 * (m + 1))) = true := by
      revert hcc
      cases ((hbAfterSweep pongs m).1 || pongIn pongs (30 * m) (30 * (m + 1))) <;> simp
    simp only [hbAfterSweep, hnd, hcc'] at hd
    simp at hd
  rw [Bool.or_eq_false_iff] at hc2
  exact hc2

/-- A sweep that is survived was not already dead, and either found the
flag up or a pong arrived in its window. -/
theorem hb_survive_step (pongs : List Nat) (m : Nat)
    (hnd : (hbAfterSweep pongs (m + 1)).2 = false) :
    (hbAfterSweep pongs m).2 = false
    ∧ ((hbAfterSweep pongs m).1 = true
      ∨ pongIn pongs (30 * m) (30 * (m + 1)) = true) := by
  have h0 : (hbAfterSweep pongs m).2 = false := by
    by_contra hc
    have hc' : (hbAfterSweep pongs m).2 = true := by
      revert hc; cases (hbAfterSweep pongs m).2 <;> simp
    simp [hbAfterSweep, hc'] at hnd
  refine ⟨h0, ?_⟩
  by_contra hc
  obtain ⟨ha, hb⟩ := not_or.mp hc
  have ha' : (hbAfterSweep pongs m).1 = false := by
    revert ha; cases (hbAfterSweep pongs m).1 <;> simp
  have hb' : pongIn pongs (30 * m) (30 * (m + 1)) = false := by
    revert hb; cases pongIn pongs (30 * m) (30 * (m + 1)) <;> simp
  simp [hbAfterSweep, h0, ha', hb'] at hnd

/-- After every survived sweep past connect, the flag is down. -/
theorem hbAlive_false (pongs : List Nat) (k : Nat) (hk : 1 ≤ k)
    (h : (hbAfterSweep pongs k).2 = false) : (hbAfterSweep pongs k).1 = false := by
  cases k with
  | zero => omega
  | succ m =>
    simp only [hbAfterSweep] at h ⊢
    split_ifs at h ⊢ with h1 h2
    rfl

/-- Claim C9, counterexample: with no acknowledgement at all the sweeper
terminates the connection at the second sweep, when exactly one ping has
been sent and at most one acknowledgement window has been missed; a
single fully missed window suffices, not two consecutive ones. -/
theorem one_missed_window_terminates :
    hbDeadAt [] 2 = true ∧ missedAcks [] 2 = 1 := by decide

/-- Sufficiency of a single missed window: a connection that survived
sweep k minus one and then received no acknowledgement during the whole
30 second window before sweep k is terminated exactly at sweep k. -/
theorem hb_one_missed_window_kills (pongs : List Nat) (k : Nat) (hk : 2 ≤ k)
    (hsurv : (hbAfterSweep pongs (k - 1)).2 = false)
    (hmiss : pongIn pongs (30 * (k - 1)) (30 * k) = false) :
    hbDeadAt pongs k = true := by
  obtain ⟨m, rfl⟩ : ∃ m, k = m + 2 := ⟨k - 2, by omega⟩
  have hprev : (hbAfterSweep pongs (m + 1)).2 = false := hsurv
  have halive : (hbAfterSweep pongs (m + 1)).1 = false :=
    hbAlive_false pongs (m + 1) (by omega) hprev
  have hmiss1 : pongIn pongs (30 * (m + 1)) (30 * (m + 2)) = false := hmiss
  have hstep : hbAfterSweep pongs (m + 2)
      = if (hbAfterSweep pongs (m + 1)).2 then ((hbAfterSweep pongs (m + 1)).1, true)
        else if (hbAfterSweep pongs (m + 1)).1
            || pongIn pongs (30 * (m + 1)) (30 * (m + 2)) then (false, false)
        else (false, true) := rfl
  have hdead : (hbAfterSweep pongs (m + 2)).2 = true := by
    rw [hstep, hprev, halive, hmiss1]
    simp
  unfold hbDeadAt
  have e : m + 2 - 1 = m + 1 := by omega
  rw [e, hdead, hprev]
  rfl

/-- Claim C9, amended: a connection is terminated at sweep k exactly when
k is at least two, the sweep before it was survived, and no
acknowledgement arrived in the single 30 second window before sweep k.
Necessity (first bundle pongs, k): termination at k implies the previous
sweep was survived and the window before k passed with no pong, and the
termination time 30 k is within 60 seconds of the last acknowledgement
(of connect when there is none).  Sufficiency (second bundle pongs2, k2):
any run that survives sweep k2 minus one and misses the whole window
before sweep k2 is terminated exactly at sweep k2, so one fully missed
window suffices, not two. -/
theorem heartbeat_termination_bound (pongs pongs2 : List Nat) (k k2 : Nat)
    (h : hbDeadAt pongs k = true) (hball : ∀ s ∈ pongs, s < 30 * k)
    (hk2 : 2 ≤ k2) (hsurv2 : (hbAfterSweep pongs2 (k2 - 1)).2 = false)
    (hmiss2 : pongIn pongs2 (30 * (k2 - 1)) (30 * k2) = false) :
    2 ≤ k ∧ (hbAfterSweep pongs (k - 1)).2 = false
    ∧ pongIn pongs (30 * (k - 1)) (30 * k) = false
    ∧ 30 * k ≤ maxPong pongs + 60
    ∧ hbDeadAt pongs2 k2 = true := by
  unfold hbDeadAt at h
  rw [Bool.and_eq_true] at h
  obtain ⟨hdk, hprev'⟩ := h
  have hprev : (hbAfterSweep pongs (k - 1)).2 = false := by
    revert hprev'; cases (hbAfterSweep pongs (k - 1)).2 <;> simp
  have hkill := hb_one_missed_window_kills pongs2 k2 hk2 hsurv2 hmiss2
  match k, hdk, hprev with
  | 0, hdk, hprev => simp [hbAfterSweep] at hdk
  | 1, hdk, hprev => simp [hbAfterSweep] at hdk
  | (m + 2), hdk, hprev =>
    have hprev1 : (hbAfterSweep pongs (m + 1)).2 = false := hprev
    have hdead := hb_dead_step pongs (m + 1) hdk hprev1
    refine ⟨by omega, hprev1, hdead.2, ?_, hkill⟩
    cases m with
    | zero =>
      omega
    | succ j =>
      have hsurv := hb_survive_step pongs (j + 1) hprev1
      have halive : (hbAfterSweep pongs (j + 1)).1 = false :=
        hbAlive_false pongs (j + 1) (by omega) hsurv.1
      rcases hsurv.2 with hup | hpong
      · rw [halive] at hup; simp at hup
      · obtain ⟨s, hsmem, hs1, hs2⟩ := pongIn_exists hpong
        have hsm := le_maxPong pongs s hsmem
        omega

/-- Claim C9, witness: a connection that acknowledged once at time 40 and
then fell silent is terminated at sweep three (time 90), within 60
seconds of its last acknowledgement; and a connection with no
acknowledgement at all, which survives sweep one and misses the whole
window before sweep two, is terminated at sweep two. -/
theorem heartbeat_termination_witness :
    2 ≤ 3 ∧ (hbAfterSweep [40] (3 - 1)).2 = false
    ∧ pongIn [40] (30 * (3 - 1)) (30 * 3) = false
    ∧ 30 * 3 ≤ maxPong [40] + 60
    ∧ hbDeadAt [] 2 = true :=
  heartbeat_termination_bound [40] [] 3 2 (by decide) (by decide) (by decide)
    (by decide) (by decide)

end P2PRelay
